import Mathlib

/-!
Verification of the UDP-association relay session
(src/tuic-server/src/connection/udp_session.rs).

The Rust code is shallowly embedded: pure control flow becomes Lean
functions, socket I/O becomes an explicit oracle (an environment value
describing the outcome of each attempted operation) together with a trace
of the socket operations performed, and the mutable close-signal slot
becomes explicit state passing.
-/

namespace UdpSessionModel

/-- An OS-level I/O error, abstracted to an opaque code. -/
abbrev IoError := Nat

/-- Socket addresses, as in std::net::SocketAddr: either an IPv4 or an
IPv6 address together with a port. The numeric address is abstracted to
a natural number since the code only branches on the address family. -/
inductive SocketAddr
  | V4 (ip : Nat) (port : Nat)
  | V6 (ip : Nat) (port : Nat)
deriving DecidableEq, Repr

/-- The error type raised by this core (crate error::Error, modelled at
the variants this file raises). Socket carries the step-identifying
message and the underlying I/O error, as built by the map_err closures
in UdpSession::new. UdpRelayIpv6Disabled carries the offending address
(udp_session.rs line 167). Io models the From conversion applied by
the question-mark operator to a bare I/O error.

Modelled from the spec: the error-kind taxonomy lives in error.rs, which
is outside the given sources; section 7 of the spec distinguishes
socket-class construction errors (carrying step and family) from plain
I/O errors, which is exactly the distinction embedded here. -/
inductive Error
  | Socket (msg : String) (err : IoError)
  | UdpRelayIpv6Disabled (addr : SocketAddr)
  | Io (err : IoError)
deriving DecidableEq, Repr

/-- Whether an error is a socket-class construction error
(the Error::Socket variant, carrying a step-identifying message). -/
def Error.isSocketClass : Error → Bool
  | .Socket _ _ => true
  | _ => false

/-- Which of the two sockets of the dual-stack pair an operation touches. -/
inductive Sock
  | v4
  | v6
deriving DecidableEq, Repr

/-- A socket I/O operation attempted by the session; send and recv
produce a trace of these so that claims about which sockets are touched
can be stated. -/
inductive SocketOp
  | sendTo (s : Sock) (pkt : List Nat) (addr : SocketAddr)
  | recvFrom (s : Sock) (bufSize : Nat)
deriving DecidableEq, Repr

/-- The process-wide configuration values consumed by this core
(spec section 6): udp_relay_ipv6, quic.max_idle_time (a duration,
abstracted to Nat time units) and max_external_packet_size.

Modelled from the spec: the configuration store CONFIG lives outside the
given sources; the spec describes it as a process-wide store whose values
are fixed for the lifetime of a session, so it is embedded as an
immutable value threaded to every read site. -/
structure Config where
  udp_relay_ipv6 : Bool
  max_idle_time : Nat
  max_external_packet_size : Nat
deriving DecidableEq, Repr

/-- The session state (struct UdpSessionInner): association id, the
optional IPv6 socket (present means Some handle; the handle itself is
abstracted to Unit since only presence matters to control flow), and the
close-signal slot (close: AsyncRwLock of Option Sender, embedded as an
Option: some means the single-use sender is still present). The
mandatory IPv4 socket and the parent connection handle carry no state
the embedded control flow inspects, so they are not fields. -/
structure UdpSession where
  assoc_id : Nat
  socket_v6 : Option Unit
  close_signal : Option Unit
deriving DecidableEq, Repr

/-! ## Send (udp_session.rs lines 160-172) -/

/-- UdpSession::send. Matches on the destination address family: a V4
address selects socket_v4; a V6 address selects socket_v6 if present and
otherwise returns Error::UdpRelayIpv6Disabled carrying the address,
before any socket operation. The chosen socket then performs send_to,
whose outcome comes from the oracle net (ok with the byte count sent, or
an I/O error, which the question-mark operator converts to Error.Io).
Returns the call result, the trace of socket operations attempted, and
the session state after the call (send takes the session by shared
reference and mutates nothing). -/
def UdpSession.send (s : UdpSession) (pkt : List Nat) (addr : SocketAddr)
    (net : Sock → Except IoError Nat) :
    Except Error Unit × List SocketOp × UdpSession :=
  match addr with
  | .V4 _ _ =>
      (match net .v4 with
       | .ok _ => .ok ()
       | .error e => .error (.Io e),
       [SocketOp.sendTo .v4 pkt addr], s)
  | .V6 _ _ =>
      match s.socket_v6 with
      | none => (.error (.UdpRelayIpv6Disabled addr), [], s)
      | some _ =>
          (match net .v6 with
           | .ok _ => .ok ()
           | .error e => .error (.Io e),
           [SocketOp.sendTo .v6 pkt addr], s)

/-! ## Close (udp_session.rs lines 192-194) -/

/-- Result of UdpSession::close: either the cancellation was sent and
the slot is now empty (carrying the post-state), or the unwrap on an
already-empty slot hit its programming-error condition (a panic in the
source). -/
inductive CloseOutcome
  | sent (after : UdpSession)
  | panicked
deriving DecidableEq, Repr

/-- UdpSession::close: acquires the write lock on the close slot, takes
the sender out, unwraps it and sends the unit cancellation (the send
result itself is discarded with a wildcard let). If the slot is empty
the unwrap fails: the panicked outcome. -/
def UdpSession.close (s : UdpSession) : CloseOutcome :=
  match s.close_signal with
  | some _ => .sent { s with close_signal := none }
  | none => .panicked

/-! ## Construction (udp_session.rs lines 35-93) -/

/-- The fallible steps of socket-pair construction, in source order:
for the IPv4 socket, creation, set_nonblocking, bind, and the
UdpSocket::from_std conversion into the async runtime handle; for the
optional IPv6 socket additionally set_only_v6 between set_nonblocking
and bind. -/
inductive BuildStep
  | createV4
  | nonblockV4
  | bindV4
  | fromStdV4
  | createV6
  | nonblockV6
  | onlyV6
  | bindV6
  | fromStdV6
deriving DecidableEq, Repr

/-- A construction oracle: for each step, none means the step succeeds,
some e means the OS reports I/O error e. -/
abbrev BuildEnv := BuildStep → Option IoError

/-- The socket_v4 block of UdpSession::new (lines 36-55): create,
set_nonblocking, bind, each failure wrapped by map_err into an
Error::Socket with the step-identifying message from the source, then
UdpSocket::from_std whose failure the question-mark operator converts
into a plain Error.Io. -/
def buildSocketV4 (env : BuildEnv) : Except Error Unit :=
  match env .createV4 with
  | some e => .error (.Socket "failed to create UDP associate IPv4 socket" e)
  | none =>
  match env .nonblockV4 with
  | some e =>
      .error (.Socket "failed setting UDP associate IPv4 socket as non-blocking" e)
  | none =>
  match env .bindV4 with
  | some e => .error (.Socket "failed to bind UDP associate IPv4 socket" e)
  | none =>
  match env .fromStdV4 with
  | some e => .error (.Io e)
  | none => .ok ()

/-- The socket_v6 block of UdpSession::new (lines 58-79): create,
set_nonblocking, set_only_v6, bind, each wrapped into Error::Socket,
then the from_std conversion converted by the question-mark operator
into a plain Error.Io. -/
def buildSocketV6 (env : BuildEnv) : Except Error Unit :=
  match env .createV6 with
  | some e => .error (.Socket "failed to create UDP associate IPv6 socket" e)
  | none =>
  match env .nonblockV6 with
  | some e =>
      .error (.Socket "failed setting UDP associate IPv6 socket as non-blocking" e)
  | none =>
  match env .onlyV6 with
  | some e =>
      .error (.Socket "failed setting UDP associate IPv6 socket as IPv6-only" e)
  | none =>
  match env .bindV6 with
  | some e => .error (.Socket "failed to bind UDP associate IPv6 socket" e)
  | none =>
  match env .fromStdV6 with
  | some e => .error (.Io e)
  | none => .ok ()

/-- UdpSession::new: builds socket_v4, then (only when
CONFIG.udp_relay_ipv6 is set) socket_v6, creates the oneshot channel
with the sender stored in the close slot, and spawns the listening loop.
Returns the construction result together with a flag recording whether
the listening loop task was spawned: in the source the tokio spawn at
line 96 is reached only after every socket step has succeeded, so no
partial session is ever left running. -/
def UdpSession.new (cfg : Config) (env : BuildEnv) (aid : Nat) :
    Except Error UdpSession × Bool :=
  match buildSocketV4 env with
  | .error e => (.error e, false)
  | .ok () =>
      if cfg.udp_relay_ipv6 then
        match buildSocketV6 env with
        | .error e => (.error e, false)
        | .ok () =>
            (.ok { assoc_id := aid, socket_v6 := some (), close_signal := some () },
             true)
      else
        (.ok { assoc_id := aid, socket_v6 := none, close_signal := some () }, true)

/-- All four IPv4-side steps succeed. -/
def v4StepsOk (env : BuildEnv) : Bool :=
  (env .createV4).isNone && (env .nonblockV4).isNone
    && (env .bindV4).isNone && (env .fromStdV4).isNone

/-- All five IPv6-side steps succeed. -/
def v6StepsOk (env : BuildEnv) : Bool :=
  (env .createV6).isNone && (env .nonblockV6).isNone && (env .onlyV6).isNone
    && (env .bindV6).isNone && (env .fromStdV6).isNone

/-- Socket-pair construction succeeds: the IPv4 side succeeds, and the
IPv6 side succeeds whenever configuration enables IPv6 relay. -/
def buildOk (cfg : Config) (env : BuildEnv) : Bool :=
  v4StepsOk env && (!cfg.udp_relay_ipv6 || v6StepsOk env)

/-! ## Receive (udp_session.rs lines 174-190) -/

/-- A datagram as delivered by the OS: the full payload of the packet on
the wire and its originating socket address. -/
structure Datagram where
  payload : List Nat
  src : SocketAddr
deriving DecidableEq, Repr

/-- The inner recv helper (lines 175-180): allocate a zero-filled buffer
of CONFIG.max_external_packet_size bytes, recv_from into it (the
platform writes at most bufSize bytes of the datagram and returns the
count n actually written, leaving the tail of the buffer zero), truncate
the buffer to n, and return it with the source address; an I/O failure
is returned as-is through the question-mark operator. -/
def recvInner (bufSize : Nat) (outcome : Except IoError Datagram) :
    Except IoError (List Nat × SocketAddr) :=
  match outcome with
  | .error e => .error e
  | .ok d =>
      let n := min d.payload.length bufSize
      let buf := d.payload.take bufSize ++ List.replicate (bufSize - n) 0
      .ok (buf.take n, d.src)

/-- Which branch of the two-socket race in recv becomes ready first
(meaningful only when the IPv6 socket exists). -/
inductive RaceWinner
  | v4first
  | v6first
deriving DecidableEq, Repr

/-- UdpSession::recv (lines 174-190): when socket_v6 exists, a
tokio-select race between recv on socket_v4 and recv on socket_v6,
resolved by whichever is ready first; otherwise recv on socket_v4 alone.
The oracle net gives each socket its recv_from outcome. Returns the
result and the session state after the call (recv takes the session by
shared reference and mutates nothing). -/
def UdpSession.recv (s : UdpSession) (cfg : Config) (winner : RaceWinner)
    (net : Sock → Except IoError Datagram) :
    Except IoError (List Nat × SocketAddr) × UdpSession :=
  match s.socket_v6 with
  | some _ =>
      match winner with
      | .v4first => (recvInner cfg.max_external_packet_size (net .v4), s)
      | .v6first => (recvInner cfg.max_external_packet_size (net .v6), s)
  | none => (recvInner cfg.max_external_packet_size (net .v4), s)

/-! ## Listening loop (udp_session.rs lines 96-155)

The spawned task is an endless loop around a three-way tokio-select.
We embed it at two levels: loopStep gives the one-iteration state
machine (which branch fired, what the loop does, whether it keeps
running), and loopRun gives the timed multi-iteration semantics in
which the idle timer is re-armed afresh at the start of every
iteration. -/

/-- The two states of the listening-loop task: Running while the loop
body is live, Closed once the break in the close-signal branch has been
executed and the task has ended. -/
inductive LoopState
  | Running
  | Closed
deriving DecidableEq, Repr

/-- The event that wins one iteration of the three-way select: the idle
timer fires, the close signal fires, or recv completes (with a datagram
or with an error). -/
inductive LoopEvent
  | timerFire
  | closeSignal
  | recvOk (pkt : List Nat) (src : SocketAddr)
  | recvErr (e : IoError)
deriving DecidableEq, Repr

/-- The observable actions of one loop iteration: closing the parent
connection (conn_clone.close() in the timer branch), spawning a relay
dispatch for a received datagram, or logging a receive error. -/
inductive LoopAction
  | closeParentConn
  | relayDispatch (pkt : List Nat) (src : SocketAddr) (aid : Nat)
  | logRecvError (e : IoError)
deriving DecidableEq, Repr

/-- One iteration of the listening loop as a step of a state machine:
from Running, the timer branch closes the parent connection and loops
(lines 99-108), the close-signal branch breaks out of the loop
(lines 109-117), a successful recv spawns relay dispatch and loops, and
a failed recv logs and continues (lines 118-145). From Closed the task
no longer exists, so no step is possible (none). -/
def loopStep (aid : Nat) : LoopState → LoopEvent → Option (LoopState × List LoopAction)
  | .Running, .timerFire => some (.Running, [.closeParentConn])
  | .Running, .closeSignal => some (.Closed, [])
  | .Running, .recvOk pkt src => some (.Running, [.relayDispatch pkt src aid])
  | .Running, .recvErr e => some (.Running, [.logRecvError e])
  | .Closed, _ => none

/-- An external stimulus delivered to the loop: a datagram arrival on a
relay socket, a receive error, or the close signal sent by close(). -/
inductive ExtEvent
  | datagram (pkt : List Nat) (src : SocketAddr)
  | datagramErr (e : IoError)
  | closeSig
deriving DecidableEq, Repr

/-- The loop event corresponding to an external stimulus winning the
select. -/
def ExtEvent.toLoopEvent : ExtEvent → LoopEvent
  | .datagram pkt src => .recvOk pkt src
  | .datagramErr e => .recvErr e
  | .closeSig => .closeSignal

/-- Timed multi-iteration run of the listening loop. Time is abstract
(Nat units). Each iteration begins at time now and freshly arms
time::sleep(idle), so the timer deadline of that iteration is
now + idle. evs is the (time-ordered) stream of pending external
stimuli. If no stimulus completes by the deadline, the timer branch
wins at the deadline: the parent connection is closed and the loop
continues at time now + idle with the timer re-armed. Otherwise the
stimulus branch wins at its completion time t, its iteration action is
emitted, and the loop continues at time t (close signal: the loop
breaks instead). fuel bounds the number of iterations simulated.
Returns the timestamped actions and the loop state afterwards. -/
def loopRun (aid idle : Nat) (fuel : Nat) (now : Nat)
    (evs : List (Nat × ExtEvent)) : List (Nat × LoopAction) × LoopState :=
  match fuel with
  | 0 => ([], .Running)
  | fuel + 1 =>
      match evs with
      | [] =>
          let rest := loopRun aid idle fuel (now + idle) []
          ((now + idle, .closeParentConn) :: rest.1, rest.2)
      | (t, e) :: tl =>
          if now + idle < t then
            let rest := loopRun aid idle fuel (now + idle) ((t, e) :: tl)
            ((now + idle, .closeParentConn) :: rest.1, rest.2)
          else
            match e with
            | .closeSig => ([], .Closed)
            | .datagram pkt src =>
                let rest := loopRun aid idle fuel t tl
                ((t, .relayDispatch pkt src aid) :: rest.1, rest.2)
            | .datagramErr err =>
                let rest := loopRun aid idle fuel t tl
                ((t, .logRecvError err) :: rest.1, rest.2)

/-! ## Per-iteration configuration reads

The loop body reads CONFIG.quic.max_idle_time afresh in every iteration
(line 99) and recv reads CONFIG.max_external_packet_size afresh in every
call (line 176). Modelled from the spec: CONFIG is the process-wide
immutable configuration store, so the value obtained by the read in
iteration (or call) i is the configuration value itself, independent
of i. -/

/-- The idle duration read from CONFIG.quic.max_idle_time by loop
iteration number i. -/
def idleTimeReadAt (cfg : Config) (_i : Nat) : Nat :=
  cfg.max_idle_time

/-- The buffer size read from CONFIG.max_external_packet_size by recv
call number i. -/
def packetSizeReadAt (cfg : Config) (_i : Nat) : Nat :=
  cfg.max_external_packet_size

/-! ## Concrete instances used by witnesses -/

/-- A construction oracle on which every socket step succeeds. -/
def envAllOk : BuildEnv := fun _ => none

/-- A construction oracle on which the IPv4 from_std conversion fails
with I/O error 7 and every other step succeeds. -/
def envFromStdV4Fails : BuildEnv := fun st =>
  match st with
  | .fromStdV4 => some 7
  | _ => none

/-- A configuration with IPv6 relay disabled. -/
def cfgNoV6 : Config :=
  { udp_relay_ipv6 := false, max_idle_time := 50, max_external_packet_size := 1500 }

/-- A configuration with IPv6 relay enabled. -/
def cfgWithV6 : Config :=
  { udp_relay_ipv6 := true, max_idle_time := 50, max_external_packet_size := 1500 }

/-- The session produced by construction under cfgNoV6. -/
def sessionNoV6 : UdpSession :=
  { assoc_id := 0x1234, socket_v6 := none, close_signal := some () }

/-- The session produced by construction under cfgWithV6. -/
def sessionWithV6 : UdpSession :=
  { assoc_id := 0x1234, socket_v6 := some (), close_signal := some () }

/-- A network oracle on which every send reports 5 bytes written. -/
def netOk : Sock → Except IoError Nat := fun _ => .ok 5

/-- A network oracle on which every send reports a single byte written. -/
def netShort : Sock → Except IoError Nat := fun _ => .ok 1

/-- A recv oracle delivering a fixed three-byte datagram from a fixed
IPv4 source on either socket. -/
def netRecv : Sock → Except IoError Datagram :=
  fun _ => .ok { payload := [10, 20, 30], src := .V4 42 9000 }

/-! ## Helper lemmas -/

/-- Shape of a successfully constructed session: association id as
given, socket_v6 present exactly when configuration enables IPv6 relay,
close slot holding the freshly created sender. -/
theorem new_ok_shape (cfg : Config) (env : BuildEnv) (aid : Nat) (s : UdpSession)
    (h : (UdpSession.new cfg env aid).1 = .ok s) :
    s = { assoc_id := aid,
          socket_v6 := if cfg.udp_relay_ipv6 then some () else none,
          close_signal := some () } := by
  unfold UdpSession.new at h
  cases hb : buildSocketV4 env with
  | error e => rw [hb] at h; simp at h
  | ok u =>
      cases u
      rw [hb] at h
      by_cases hc : cfg.udp_relay_ipv6
      · simp only [hc, if_true] at h ⊢
        cases hb6 : buildSocketV6 env with
        | error e => rw [hb6] at h; simp at h
        | ok u => cases u; rw [hb6] at h; simp at h; exact h.symm
      · simp only [hc, if_false] at h ⊢
        simp only [Bool.false_eq_true, if_false] at h
        simp at h
        exact h.symm

/-- buildSocketV4 succeeds exactly when all four IPv4 steps succeed. -/
theorem buildSocketV4_ok_iff (env : BuildEnv) :
    buildSocketV4 env = .ok () ↔ v4StepsOk env = true := by
  unfold buildSocketV4 v4StepsOk
  cases env .createV4 <;> cases env .nonblockV4 <;> cases env .bindV4
    <;> cases env .fromStdV4 <;> simp

/-- buildSocketV6 succeeds exactly when all five IPv6 steps succeed. -/
theorem buildSocketV6_ok_iff (env : BuildEnv) :
    buildSocketV6 env = .ok () ↔ v6StepsOk env = true := by
  unfold buildSocketV6 v6StepsOk
  cases env .createV6 <;> cases env .nonblockV6 <;> cases env .onlyV6
    <;> cases env .bindV6 <;> cases env .fromStdV6 <;> simp

/-- The truncated receive buffer is exactly the datagram payload cut to
the buffer size: truncating the zero-padded buffer to the received
count n recovers the first n bytes, which are the payload prefix the
platform wrote. -/
theorem recvInner_ok_eq (bufSize : Nat) (d : Datagram) :
    recvInner bufSize (.ok d) = .ok (d.payload.take bufSize, d.src) := by
  unfold recvInner
  by_cases h : d.payload.length ≤ bufSize
  · have hn : min d.payload.length bufSize = d.payload.length := min_eq_left h
    have htake : d.payload.take bufSize = d.payload := List.take_of_length_le h
    simp only [hn, htake]
    rw [List.take_left]
  · push_neg at h
    have hn : min d.payload.length bufSize = bufSize := min_eq_right h.le
    simp only [hn, Nat.sub_self, List.replicate_zero, List.append_nil,
      List.take_take, min_self]

/-- With no external stimuli the loop fires the idle timer once per
idle period: running k iterations from time now emits exactly k
parent-connection closes, at times now + idle, now + 2 * idle, ...,
and the loop is still running afterwards. -/
theorem loopRun_no_stimuli (aid idle : Nat) :
    ∀ (k now : Nat),
      loopRun aid idle k now []
        = ((List.range k).map
             (fun i => (now + (i + 1) * idle, LoopAction.closeParentConn)),
           .Running) := by
  intro k
  induction k with
  | zero => intro now; rfl
  | succ k ih =>
      intro now
      rw [loopRun, ih (now + idle), List.range_succ_eq_map]
      simp only [List.map_cons, List.map_map]
      refine Prod.ext ?_ rfl
      simp only []
      congr 1
      · simp [Nat.one_mul]
      · apply List.map_congr_left
        intro a _
        simp only [Function.comp, Nat.succ_eq_add_one]
        congr 1
        ring

/-! ## Claim theorems -/

/-- Claim C1: for every payload and every IPv6 destination, if the
session was constructed with IPv6 relay disabled then send returns the
distinct IPv6-relay-disabled error carrying exactly the offending
address, with an empty socket-operation trace: the check precedes any
socket I/O and no socket is touched. -/
theorem c1_send_ipv6_disabled (cfg : Config) (env : BuildEnv) (aid : Nat)
    (s : UdpSession) (hcfg : cfg.udp_relay_ipv6 = false)
    (hnew : (UdpSession.new cfg env aid).1 = .ok s)
    (pkt : List Nat) (ip port : Nat) (net : Sock → Except IoError Nat) :
    s.send pkt (.V6 ip port) net
      = (.error (.UdpRelayIpv6Disabled (.V6 ip port)), [], s) := by
  have hshape := new_ok_shape cfg env aid s hnew
  have hv6 : s.socket_v6 = none := by rw [hshape]; simp [hcfg]
  unfold UdpSession.send
  rw [hv6]

/-- Witness for C1 at a concrete session, payload and address. -/
theorem c1_send_ipv6_disabled_witness :
    UdpSession.send sessionNoV6 [104, 105] (.V6 0x20010db8 9000) netOk
      = (.error (.UdpRelayIpv6Disabled (.V6 0x20010db8 9000)), [], sessionNoV6) :=
  c1_send_ipv6_disabled cfgNoV6 envAllOk 0x1234 sessionNoV6 rfl rfl
    [104, 105] 0x20010db8 9000 netOk

/-- Claim C2: the listening loop is a two-state machine over
{Running, Closed}: from Running, a timer fire closes the parent
connection and returns to Running, a successful or failed receive
returns to Running (a receive error is logged, never fatal), and only
the close signal makes the terminal transition to Closed; from Closed no
step exists, the loop task has ended. -/
theorem c2_loop_state_machine (aid : Nat) :
    loopStep aid .Running .timerFire = some (.Running, [.closeParentConn])
  ∧ (∀ pkt src, loopStep aid .Running (.recvOk pkt src)
      = some (.Running, [.relayDispatch pkt src aid]))
  ∧ (∀ e, loopStep aid .Running (.recvErr e)
      = some (.Running, [.logRecvError e]))
  ∧ loopStep aid .Running .closeSignal = some (.Closed, [])
  ∧ (∀ ev, loopStep aid .Closed ev = none) := by
  refine ⟨rfl, fun _ _ => rfl, fun _ => rfl, rfl, fun ev => ?_⟩
  cases ev <;> rfl

/-- Claim C3: with no datagram and no close signal, the loop closes the
parent connection exactly once per uninterrupted idle period — k
simulated iterations from time now yield exactly the closes at
now + idle, now + 2 * idle, ..., now + k * idle, with the loop still
running — and a datagram arriving at time t within the armed period is
relayed and re-arms the timer: the next timer fire is at t + idle,
because the timer is freshly armed every iteration. -/
theorem c3_idle_timer_rearm (aid idle k now t : Nat) (pkt : List Nat)
    (src : SocketAddr) (_h1 : now ≤ t) (h2 : t ≤ now + idle) :
    loopRun aid idle k now []
      = ((List.range k).map
           (fun i => (now + (i + 1) * idle, LoopAction.closeParentConn)),
         .Running)
  ∧ loopRun aid idle 2 now [(t, .datagram pkt src)]
      = ([(t, .relayDispatch pkt src aid), (t + idle, .closeParentConn)],
         .Running) := by
  refine ⟨loopRun_no_stimuli aid idle k now, ?_⟩
  have hlt : ¬ now + idle < t := not_lt.mpr h2
  rw [loopRun]
  simp only [hlt, if_false]
  rw [loopRun, loopRun]

/-- Witness for C3: idle duration 50 armed at time 0, a datagram at
time 30; the dispatch happens at 30 and the next timer fire at 80. -/
theorem c3_idle_timer_rearm_witness :
    loopRun 0x1234 50 3 0 []
      = ([(50, .closeParentConn), (100, .closeParentConn),
          (150, .closeParentConn)], .Running)
  ∧ loopRun 0x1234 50 2 0 [(30, .datagram [1] (.V4 42 9000))]
      = ([(30, .relayDispatch [1] (.V4 42 9000) 0x1234),
          (80, .closeParentConn)], .Running) := by
  have h := c3_idle_timer_rearm 0x1234 50 3 0 30 [1] (.V4 42 9000)
    (by decide) (by decide)
  exact ⟨by rw [h.1]; rfl, h.2⟩

/-- Claim C4: close takes the sender out of the close-signal slot and
sends the cancellation; under the unchecked precondition that the
sender is still present the take-and-unwrap cannot fail and leaves the
slot empty, and a second close on the emptied slot does not send again
— it hits the programming-error condition (the unwrap panics). -/
theorem c4_close_once (s : UdpSession) (h : s.close_signal = some ()) :
    s.close = .sent { s with close_signal := none }
  ∧ ({ s with close_signal := none } : UdpSession).close = .panicked := by
  constructor
  · unfold UdpSession.close
    rw [h]
  · rfl

/-- Witness for C4 at a concrete session. -/
theorem c4_close_once_witness :
    UdpSession.close sessionNoV6
      = .sent { sessionNoV6 with close_signal := none }
  ∧ UdpSession.close { sessionNoV6 with close_signal := none } = .panicked :=
  c4_close_once sessionNoV6 rfl

/-- Counterexample to claim C5 as stated: an oracle on which socket
creation, non-blocking configuration, bind and the IPv6-only flag all
succeed, yet construction still fails — the IPv4 from_std conversion
into the async runtime handle fails — and the propagated error is a
plain I/O error, not a socket-class error identifying a step and an
address family. -/
theorem c5_construction_counterexample :
    (UdpSession.new cfgNoV6 envFromStdV4Fails 0).1 = .error (.Io 7)
  ∧ (Error.Io 7).isSocketClass = false
  ∧ envFromStdV4Fails .createV4 = none
  ∧ envFromStdV4Fails .nonblockV4 = none
  ∧ envFromStdV4Fails .bindV4 = none
  ∧ envFromStdV4Fails .createV6 = none
  ∧ envFromStdV4Fails .nonblockV6 = none
  ∧ envFromStdV4Fails .onlyV6 = none
  ∧ envFromStdV4Fails .bindV6 = none :=
  ⟨rfl, rfl, rfl, rfl, rfl, rfl, rfl, rfl, rfl⟩

/-- Claim C5 as amended: construction fails if and only if socket-pair
construction fails — at socket creation, non-blocking configuration,
bind, the IPv6-only flag for the v6 socket, or the conversion of a
bound socket into an async runtime handle. Failures of the first four
step kinds propagate a socket-class error whose message identifies the
failing step and the address family; a conversion failure propagates
the underlying I/O error directly. In every failure case no partial
session is left: the listening loop is spawned exactly when
construction succeeds. -/
theorem c5_construction_failures (cfg : Config) (env : BuildEnv) (aid : Nat) :
    ((∃ s, (UdpSession.new cfg env aid).1 = .ok s) ↔ buildOk cfg env = true)
  ∧ ((UdpSession.new cfg env aid).2 = buildOk cfg env)
  ∧ (∀ e, buildSocketV4 env = .error e →
      UdpSession.new cfg env aid = (.error e, false))
  ∧ (cfg.udp_relay_ipv6 = true → buildSocketV4 env = .ok () →
      ∀ e, buildSocketV6 env = .error e →
        UdpSession.new cfg env aid = (.error e, false))
  ∧ (∀ e, env .createV4 = some e → buildSocketV4 env
      = .error (.Socket "failed to create UDP associate IPv4 socket" e))
  ∧ (∀ e, env .createV4 = none → env .nonblockV4 = some e → buildSocketV4 env
      = .error (.Socket "failed setting UDP associate IPv4 socket as non-blocking" e))
  ∧ (∀ e, env .createV4 = none → env .nonblockV4 = none → env .bindV4 = some e →
      buildSocketV4 env
        = .error (.Socket "failed to bind UDP associate IPv4 socket" e))
  ∧ (∀ e, env .createV4 = none → env .nonblockV4 = none → env .bindV4 = none →
      env .fromStdV4 = some e → buildSocketV4 env = .error (.Io e))
  ∧ (∀ e, env .createV6 = some e → buildSocketV6 env
      = .error (.Socket "failed to create UDP associate IPv6 socket" e))
  ∧ (∀ e, env .createV6 = none → env .nonblockV6 = some e → buildSocketV6 env
      = .error (.Socket "failed setting UDP associate IPv6 socket as non-blocking" e))
  ∧ (∀ e, env .createV6 = none → env .nonblockV6 = none → env .onlyV6 = some e →
      buildSocketV6 env
        = .error (.Socket "failed setting UDP associate IPv6 socket as IPv6-only" e))
  ∧ (∀ e, env .createV6 = none → env .nonblockV6 = none → env .onlyV6 = none →
      env .bindV6 = some e → buildSocketV6 env
        = .error (.Socket "failed to bind UDP associate IPv6 socket" e))
  ∧ (∀ e, env .createV6 = none → env .nonblockV6 = none → env .onlyV6 = none →
      env .bindV6 = none → env .fromStdV6 = some e →
        buildSocketV6 env = .error (.Io e)) := by
  refine ⟨?_, ?_, ?_, ?_, ?_, ?_, ?_, ?_, ?_, ?_, ?_, ?_, ?_⟩
  · constructor
    · rintro ⟨s, hs⟩
      unfold UdpSession.new at hs
      cases hb : buildSocketV4 env with
      | error e => rw [hb] at hs; simp at hs
      | ok u =>
          cases u
          rw [hb] at hs
          have hv4 : v4StepsOk env = true := (buildSocketV4_ok_iff env).mp hb
          by_cases hc : cfg.udp_relay_ipv6
          · simp only [hc, if_true] at hs
            cases hb6 : buildSocketV6 env with
            | error e => rw [hb6] at hs; simp at hs
            | ok u =>
                cases u
                have hv6 : v6StepsOk env = true := (buildSocketV6_ok_iff env).mp hb6
                unfold buildOk
                rw [hv4, hc, hv6]
                rfl
          · unfold buildOk
            rw [hv4, Bool.not_eq_true] at *
            rw [hc]
            rfl
    · intro hok
      unfold buildOk at hok
      rw [Bool.and_eq_true] at hok
      obtain ⟨hv4, hrest⟩ := hok
      have hb : buildSocketV4 env = .ok () := (buildSocketV4_ok_iff env).mpr hv4
      unfold UdpSession.new
      rw [hb]
      by_cases hc : cfg.udp_relay_ipv6
      · rw [hc, Bool.not_true, Bool.false_or] at hrest
        have hb6 : buildSocketV6 env = .ok () := (buildSocketV6_ok_iff env).mpr hrest
        simp only [hc, if_true, hb6]
        exact ⟨_, rfl⟩
      · simp only [hc, if_false]
        exact ⟨_, rfl⟩
  · unfold UdpSession.new buildOk
    cases hb : buildSocketV4 env with
    | error e =>
        have hv4 : v4StepsOk env = false := by
          rcases hv : v4StepsOk env with _ | _
          · rfl
          · rw [(buildSocketV4_ok_iff env).mpr hv] at hb; cases hb
        rw [hv4]
        rfl
    | ok u =>
        cases u
        have hv4 : v4StepsOk env = true := (buildSocketV4_ok_iff env).mp hb
        rw [hv4]
        by_cases hc : cfg.udp_relay_ipv6
        · rw [hc]
          cases hb6 : buildSocketV6 env with
          | error e =>
              have hv6 : v6StepsOk env = false := by
                rcases hv : v6StepsOk env with _ | _
                · rfl
                · rw [(buildSocketV6_ok_iff env).mpr hv] at hb6; cases hb6
              rw [hv6]
              rfl
          | ok u =>
              cases u
              have hv6 : v6StepsOk env = true := (buildSocketV6_ok_iff env).mp hb6
              rw [hv6]
              rfl
        · rcases hcb : cfg.udp_relay_ipv6 with _ | _
          · rfl
          · exact absurd hcb hc
  · intro e he
    unfold UdpSession.new
    rw [he]
  · intro hc hb e he6
    unfold UdpSession.new
    rw [hb, hc]
    simp only [if_true, he6]
  · intro e he
    unfold buildSocketV4
    rw [he]
  · intro e h1 h2
    unfold buildSocketV4
    rw [h1, h2]
  · intro e h1 h2 h3
    unfold buildSocketV4
    rw [h1, h2, h3]
  · intro e h1 h2 h3 h4
    unfold buildSocketV4
    rw [h1, h2, h3, h4]
  · intro e he
    unfold buildSocketV6
    rw [he]
  · intro e h1 h2
    unfold buildSocketV6
    rw [h1, h2]
  · intro e h1 h2 h3
    unfold buildSocketV6
    rw [h1, h2, h3]
  · intro e h1 h2 h3 h4
    unfold buildSocketV6
    rw [h1, h2, h3, h4]
  · intro e h1 h2 h3 h4 h5
    unfold buildSocketV6
    rw [h1, h2, h3, h4, h5]

/-- Witness for the amended C5: under the all-success oracle a session
with IPv6 relay enabled is constructed and the loop spawned, and under
the oracle failing at the IPv4 bind the construction propagates the
step-identifying socket error. -/
theorem c5_construction_failures_witness :
    ((∃ s, (UdpSession.new cfgWithV6 envAllOk 0x1234).1 = .ok s)
      ↔ buildOk cfgWithV6 envAllOk = true)
  ∧ (UdpSession.new cfgWithV6 envAllOk 0x1234).2 = buildOk cfgWithV6 envAllOk
  ∧ buildSocketV4 envFromStdV4Fails = .error (.Io 7) :=
  ⟨(c5_construction_failures cfgWithV6 envAllOk 0x1234).1,
   (c5_construction_failures cfgWithV6 envAllOk 0x1234).2.1,
   (c5_construction_failures cfgNoV6 envFromStdV4Fails 0).2.2.2.2.2.2.2.1
     7 rfl rfl rfl rfl⟩

/-- Claim C6: recv waits on whichever socket is ready first — a race
between the IPv4 and IPv6 sockets when the IPv6 socket exists, only the
IPv4 socket otherwise — reads into a buffer sized to the configured
maximum external packet size, truncates to the actual received length
so the returned payload is the datagram cut to that size (never longer
than the buffer), returns it with the originating address, and on
failure returns the underlying I/O receive error. -/
theorem c6_recv_contract (s : UdpSession) (cfg : Config)
    (net : Sock → Except IoError Datagram) :
    (∀ u, s.socket_v6 = some u →
        s.recv cfg .v4first net
          = (recvInner cfg.max_external_packet_size (net .v4), s)
      ∧ s.recv cfg .v6first net
          = (recvInner cfg.max_external_packet_size (net .v6), s))
  ∧ (s.socket_v6 = none → ∀ w, s.recv cfg w net
      = (recvInner cfg.max_external_packet_size (net .v4), s))
  ∧ (∀ bufSize d, recvInner bufSize (.ok d)
        = .ok (d.payload.take bufSize, d.src)
      ∧ (d.payload.take bufSize).length ≤ bufSize)
  ∧ (∀ bufSize e, recvInner bufSize (.error e) = .error e) := by
  refine ⟨?_, ?_, ?_, fun _ _ => rfl⟩
  · intro u hu
    cases u
    constructor <;> (unfold UdpSession.recv; rw [hu])
  · intro h w
    unfold UdpSession.recv
    rw [h]
  · intro bufSize d
    exact ⟨recvInner_ok_eq bufSize d, by
      rw [List.length_take]; exact min_le_left _ _⟩

/-- Witness for C6: a session with the IPv6 socket present, a fixed
three-byte datagram and a buffer of 1500 bytes; also the truncation at
a two-byte buffer. -/
theorem c6_recv_contract_witness :
    UdpSession.recv sessionWithV6 cfgWithV6 .v6first netRecv
      = (.ok ([10, 20, 30], .V4 42 9000), sessionWithV6)
  ∧ UdpSession.recv sessionNoV6 cfgNoV6 .v6first netRecv
      = (.ok ([10, 20, 30], .V4 42 9000), sessionNoV6)
  ∧ recvInner 2 (.ok { payload := [10, 20, 30], src := .V4 42 9000 })
      = .ok ([10, 20], .V4 42 9000) := by
  have h1 := (c6_recv_contract sessionWithV6 cfgWithV6 netRecv).1 () rfl
  have h2 := (c6_recv_contract sessionNoV6 cfgNoV6 netRecv).2.1 rfl .v6first
  have h3 := ((c6_recv_contract sessionNoV6 cfgNoV6 netRecv).2.2.1 2
    { payload := [10, 20, 30], src := .V4 42 9000 }).1
  refine ⟨?_, ?_, ?_⟩
  · rw [h1.2]; rfl
  · rw [h2]; rfl
  · rw [h3]; rfl

/-- Claim C7: socket_v6 is present if and only if IPv6 relay was
enabled in configuration at construction time, and its existence is
fixed: send and recv leave the session state unchanged, and close
(which only empties the close-signal slot) preserves socket_v6. -/
theorem c7_socket_v6_presence (cfg : Config) (env : BuildEnv) (aid : Nat)
    (s : UdpSession) (hnew : (UdpSession.new cfg env aid).1 = .ok s) :
    (s.socket_v6.isSome = cfg.udp_relay_ipv6)
  ∧ (∀ pkt addr net, (s.send pkt addr net).2.2 = s)
  ∧ (∀ cfg2 w net, (s.recv cfg2 w net).2 = s)
  ∧ (∀ s2, s.close = .sent s2 → s2.socket_v6 = s.socket_v6) := by
  have hshape := new_ok_shape cfg env aid s hnew
  refine ⟨?_, ?_, ?_, ?_⟩
  · rw [hshape]
    by_cases hc : cfg.udp_relay_ipv6 <;> simp [hc]
  · intro pkt addr net
    unfold UdpSession.send
    cases addr with
    | V4 ip port => rfl
    | V6 ip port => cases hv : s.socket_v6 <;> rfl
  · intro cfg2 w net
    unfold UdpSession.recv
    cases hv : s.socket_v6 with
    | none => rfl
    | some u => cases w <;> rfl
  · intro s2 hs2
    unfold UdpSession.close at hs2
    cases hv : s.close_signal with
    | none => rw [hv] at hs2; cases hs2
    | some u =>
        rw [hv] at hs2
        cases hs2
        rfl

/-- Witness for C7 at a concretely constructed session with IPv6 relay
enabled. -/
theorem c7_socket_v6_presence_witness :
    (sessionWithV6.socket_v6.isSome = cfgWithV6.udp_relay_ipv6)
  ∧ (UdpSession.send sessionWithV6 [1] (.V4 42 9000) netOk).2.2 = sessionWithV6
  ∧ (UdpSession.recv sessionWithV6 cfgWithV6 .v4first netRecv).2 = sessionWithV6 := by
  have h := c7_socket_v6_presence cfgWithV6 envAllOk 0x1234 sessionWithV6 rfl
  exact ⟨h.1, h.2.1 [1] (.V4 42 9000) netOk, h.2.2.1 cfgWithV6 .v4first netRecv⟩

/-- Claim C8: for every payload and every IPv4 destination, send
selects and attempts exactly the IPv4 socket — whatever the IPv6
configuration, i.e. for every session state — succeeding when the
underlying send_to succeeds and surfacing the underlying I/O failure
otherwise. -/
theorem c8_send_v4 (s : UdpSession) (pkt : List Nat) (ip port : Nat)
    (net : Sock → Except IoError Nat) :
    ((s.send pkt (.V4 ip port) net).2.1
      = [SocketOp.sendTo .v4 pkt (.V4 ip port)])
  ∧ (∀ n, net .v4 = .ok n → (s.send pkt (.V4 ip port) net).1 = .ok ())
  ∧ (∀ e, net .v4 = .error e →
      (s.send pkt (.V4 ip port) net).1 = .error (.Io e)) := by
  refine ⟨rfl, ?_, ?_⟩ <;> (intro x h; unfold UdpSession.send; rw [h])

/-- Witness for C8: a concrete IPv4 send on a session that does have
the IPv6 socket, transmitted through the IPv4 socket. -/
theorem c8_send_v4_witness :
    (UdpSession.send sessionWithV6 [1, 2, 3] (.V4 3232235521 9000) netOk).1
      = .ok ()
  ∧ (UdpSession.send sessionWithV6 [1, 2, 3] (.V4 3232235521 9000) netOk).2.1
      = [SocketOp.sendTo .v4 [1, 2, 3] (.V4 3232235521 9000)] :=
  ⟨(c8_send_v4 sessionWithV6 [1, 2, 3] 3232235521 9000 netOk).2.1 5 rfl,
   (c8_send_v4 sessionWithV6 [1, 2, 3] 3232235521 9000 netOk).1⟩

/-- Claim C9: the configuration values are fixed for the session
lifetime — the idle-duration read performed by any loop iteration and
the packet-size read performed by any recv call yield the construction
time configuration values, so arming the timer or sizing the buffer
from the read of iteration i behaves identically to using the
construction-time snapshot. The configuration store is modelled as
immutable, per the spec. -/
theorem c9_config_reads_fixed (cfg : Config) (i j : Nat) :
    idleTimeReadAt cfg i = cfg.max_idle_time
  ∧ packetSizeReadAt cfg j = cfg.max_external_packet_size
  ∧ (∀ aid fuel now evs,
      loopRun aid (idleTimeReadAt cfg i) fuel now evs
        = loopRun aid (idleTimeReadAt cfg 0) fuel now evs)
  ∧ (∀ outcome, recvInner (packetSizeReadAt cfg j) outcome
      = recvInner (packetSizeReadAt cfg 0) outcome) :=
  ⟨rfl, rfl, fun _ _ _ _ => rfl, fun _ => rfl⟩

/-- Claim C10: send discards the byte count returned by the underlying
send_to: if the oracle reports a successful write of n bytes with n
strictly smaller than the payload length, send still returns success —
the short write is neither detected nor reported, on either socket. -/
theorem c10_short_write_undetected (s : UdpSession) (pkt : List Nat)
    (net : Sock → Except IoError Nat) (n : Nat) (ip4 p4 ip6 p6 : Nat)
    (_hshort : n < pkt.length) :
    (net .v4 = .ok n → (s.send pkt (.V4 ip4 p4) net).1 = .ok ())
  ∧ (∀ u, s.socket_v6 = some u → net .v6 = .ok n →
      (s.send pkt (.V6 ip6 p6) net).1 = .ok ()) := by
  constructor
  · intro h
    unfold UdpSession.send
    rw [h]
  · intro u hu h
    cases u
    unfold UdpSession.send
    rw [hu, h]

/-- Witness for C10: a three-byte payload, an oracle reporting one byte
written, success on both address families. -/
theorem c10_short_write_undetected_witness :
    (1 < ([1, 2, 3] : List Nat).length)
  ∧ (UdpSession.send sessionWithV6 [1, 2, 3] (.V4 42 9000) netShort).1 = .ok ()
  ∧ (UdpSession.send sessionWithV6 [1, 2, 3] (.V6 77 9000) netShort).1 = .ok () := by
  have h := c10_short_write_undetected sessionWithV6 [1, 2, 3] netShort 1
    42 9000 77 9000 (by decide)
  exact ⟨by decide, h.1 rfl, h.2 () rfl rfl⟩

end UdpSessionModel
